import Mathlib

/-!
Verification of the `OCRUploader` React component
(`src/frontend/src/components/OCRUploader.jsx`).

The component keeps five pieces of state (`loading`, `isDownloading`,
`status`, `text`, `originalFile`) and exposes two async handlers:
`handleUpload` (POST the selected file to `/extract-text`, display the
returned text) and `handleDownload` (POST the remembered file to
`/extract-docx`, save the returned blob as `extracted_text.docx`).

We embed each handler as a function from its inputs (the selected /
remembered file and the outcome of the single `fetch` call) to the
ordered list of primitive effects it performs.  The final component
state is the fold of the state-mutating effects over the starting
state; the trace itself witnesses ordering properties (what happens
before the network request, the object-URL lifecycle, absence of
retries).
-/

namespace OCRUploader

/-- A JavaScript value that is either a string or `undefined`; used for
state variables and JSON fields the component reads (`data.text`,
`data.detail`).  `undefined` models an absent field. -/
inductive JSVal where
  | undef
  | str (s : String)
deriving DecidableEq

/-- JavaScript truthiness for `JSVal`: `undefined` and the empty string
are falsy, every other string is truthy. -/
def JSVal.truthy : JSVal → Bool
  | .undef => false
  | .str s => !(s == "")

/-- JavaScript `v || fallback` specialised to a string fallback: yields
the string held by `v` when `v` is truthy, otherwise the fallback. -/
def JSVal.orString : JSVal → String → String
  | .undef, fb => fb
  | .str s, fb => if s == "" then fb else s

/-- A file object as the component sees it: only the `name` property is
ever read (for the "Processing ..." status).  Equality of `JSFile`
values models JS object identity for the purposes of this component. -/
structure JSFile where
  name : String
deriving DecidableEq

/-- The JSON object shape the component reads from either endpoint:
an optional `detail` string (error paths) and an optional `text`
string (the extraction result). -/
structure JsonObj where
  detail : JSVal
  text : JSVal
deriving DecidableEq

/-- A resolved `fetch` response: the `ok` flag (true exactly for 2xx),
the numeric `status`, and the result of reading the body as JSON —
`Except.ok` with the parsed object, or `Except.error` with the message
of the rejection that `res.json()` produces on an unparseable body. -/
structure Response where
  ok : Bool
  statusCode : Nat
  jsonBody : Except String JsonObj

/-- Outcome of one `fetch` call: the promise rejects (network failure)
with an error message, or resolves to a `Response`. -/
inductive FetchResult where
  | failure (msg : String)
  | success (r : Response)

/-- Primitive effects a handler performs, in program order: the five
React state setters, the `fetch` call, `console.error`, and the DOM /
object-URL operations of the download path. -/
inductive Event where
  | setLoading (b : Bool)
  | setIsDownloading (b : Bool)
  | setStatus (s : String)
  | setText (v : JSVal)
  | setOriginalFile (f : Option JSFile)
  | fetchRequest (url : String)
  | consoleError (context msg : String)
  | createObjectURL
  | appendChild
  | clickAnchor (filename : String)
  | removeAnchor
  | revokeObjectURL
deriving DecidableEq

/-- The component state: the five `useState` slots of `OCRUploader`. -/
structure ComponentState where
  loading : Bool
  isDownloading : Bool
  status : String
  text : JSVal
  originalFile : Option JSFile
deriving DecidableEq

/-- The initial state: both busy flags false, empty status, empty text,
no remembered file. -/
def initialState : ComponentState :=
  { loading := false, isDownloading := false, status := "",
    text := JSVal.str "", originalFile := none }

/-- Apply one effect to the component state; effects that do not touch
React state (network, console, DOM) leave it unchanged. -/
def applyEvent (st : ComponentState) : Event → ComponentState
  | .setLoading b => { st with loading := b }
  | .setIsDownloading b => { st with isDownloading := b }
  | .setStatus s => { st with status := s }
  | .setText v => { st with text := v }
  | .setOriginalFile f => { st with originalFile := f }
  | _ => st

/-- Run a trace of effects from a starting state. -/
def runEvents (st : ComponentState) (es : List Event) : ComponentState :=
  es.foldl applyEvent st

/-- Shallow embedding of `handleUpload`.  `files` is `e.target.files`;
the handler returns immediately when no file is selected.  Otherwise it
sets the busy flag, writes the "Processing ..." status, clears the old
text and remembered file, issues the POST to `/extract-text`, then
branches on the outcome: a rejected fetch or a rejected `res.json()`
lands in the catch block; a parsed body with `!res.ok` throws
`data.detail || "Server error: <status>"`; a parsed body with `res.ok`
stores `data.text`, sets the success status and remembers the file.
The `finally` block always clears the busy flag. -/
def handleUpload (files : List JSFile) (result : FetchResult) : List Event :=
  match files.head? with
  | none => []
  | some file =>
    [Event.setLoading true,
     Event.setStatus ("Processing " ++ file.name ++ "..."),
     Event.setText (JSVal.str ""),
     Event.setOriginalFile none,
     Event.fetchRequest "http://localhost:8000/extract-text"]
    ++ (match result with
        | .failure msg =>
            [Event.consoleError "Upload failed:" msg,
             Event.setStatus ("Error: " ++ msg)]
        | .success r =>
            match r.jsonBody with
            | .error parseMsg =>
                [Event.consoleError "Upload failed:" parseMsg,
                 Event.setStatus ("Error: " ++ parseMsg)]
            | .ok data =>
                if !r.ok then
                  [Event.consoleError "Upload failed:"
                     (data.detail.orString ("Server error: " ++ toString r.statusCode)),
                   Event.setStatus ("Error: " ++
                     data.detail.orString ("Server error: " ++ toString r.statusCode))]
                else
                  [Event.setText data.text,
                   Event.setStatus "Success! Text extracted.",
                   Event.setOriginalFile (some file)])
    ++ [Event.setLoading false]

/-- Shallow embedding of `handleDownload`.  Returns immediately when no
file is remembered.  Otherwise it sets its own busy flag, writes the
"Preparing download..." status, issues the POST to `/extract-docx`,
then branches: a rejected fetch lands in the catch block; `!res.ok`
reads the body as JSON with `.catch(() => ({}))` (so a parse failure
yields an object with no `detail`) and throws
`errorDetail || "Server error: <status>"`; on success it creates an
object URL from the blob, appends an anchor with download name
`extracted_text.docx`, clicks it, removes it, revokes the URL and sets
the success status.  The `finally` block clears the busy flag. -/
def handleDownload (originalFile : Option JSFile) (result : FetchResult) : List Event :=
  match originalFile with
  | none => []
  | some _file =>
    [Event.setIsDownloading true,
     Event.setStatus "Preparing download...",
     Event.fetchRequest "http://localhost:8000/extract-docx"]
    ++ (match result with
        | .failure msg =>
            [Event.consoleError "Download failed:" msg,
             Event.setStatus ("Error: " ++ msg)]
        | .success r =>
            if !r.ok then
              [Event.consoleError "Download failed:"
                 ((match r.jsonBody with
                   | .ok data => data.detail
                   | .error _ => JSVal.undef).orString
                  ("Server error: " ++ toString r.statusCode)),
               Event.setStatus ("Error: " ++
                 (match r.jsonBody with
                  | .ok data => data.detail
                  | .error _ => JSVal.undef).orString
                 ("Server error: " ++ toString r.statusCode))]
            else
              [Event.createObjectURL,
               Event.appendChild,
               Event.clickAnchor "extracted_text.docx",
               Event.removeAnchor,
               Event.revokeObjectURL,
               Event.setStatus "Success! File downloaded."])
    ++ [Event.setIsDownloading false]

/-- JS `String.prototype.startsWith`, modelled on character lists:
`jsStartsWith p s` is true iff the characters of `p` are a prefix of
the characters of `s`. -/
def jsStartsWithChars : List Char → List Char → Bool
  | [], _ => true
  | _ :: _, [] => false
  | p :: ps, c :: cs => p == c && jsStartsWithChars ps cs

/-- JS `s.startsWith(p)` on strings. -/
def jsStartsWith (s p : String) : Bool :=
  jsStartsWithChars p.data s.data

/-- The render-time classification of the status message:
`status.startsWith("Error:")` drives the red styling. -/
def statusIsError (st : ComponentState) : Bool :=
  jsStartsWith st.status "Error:"

/-- The download button is rendered exactly when `text && !loading`. -/
def downloadButtonVisible (st : ComponentState) : Bool :=
  st.text.truthy && !st.loading

/-- The rendered download button carries `disabled={isDownloading}`, so
it is clickable exactly when it is visible and `isDownloading` is
false. -/
def downloadButtonEnabled (st : ComponentState) : Bool :=
  downloadButtonVisible st && !st.isDownloading

/-- The file input carries `disabled={loading || isDownloading}`. -/
def fileInputDisabled (st : ComponentState) : Bool :=
  st.loading || st.isDownloading

/-- The text the user sees: the textarea is rendered with value
`st.text` exactly when `st.text` is truthy; otherwise nothing is
shown, which we render as the empty string. -/
def displayedText (st : ComponentState) : String :=
  match st.text with
  | .undef => ""
  | .str s => s

/-- True for the effect of a `setLoading` call. -/
def Event.isSetLoading : Event → Bool
  | .setLoading _ => true
  | _ => false

/-- True for the effect of a `setText` call. -/
def Event.isSetText : Event → Bool
  | .setText _ => true
  | _ => false

/-- True for the effect of a `setOriginalFile` call. -/
def Event.isSetOriginalFile : Event → Bool
  | .setOriginalFile _ => true
  | _ => false

/-- True for the effect of a `setIsDownloading` call. -/
def Event.isSetIsDownloading : Event → Bool
  | .setIsDownloading _ => true
  | _ => false

/-- True for the issuing of a network request. -/
def Event.isFetch : Event → Bool
  | .fetchRequest _ => true
  | _ => false

/-- An upload execution ends in an error iff the fetch rejects, or the
body is not parseable JSON (since `handleUpload` calls `res.json()`
unconditionally), or the response is non-2xx. -/
def uploadEndsInError : FetchResult → Bool
  | .failure _ => true
  | .success r =>
    match r.jsonBody with
    | .error _ => true
    | .ok _ => !r.ok

/-- A download execution ends in an error iff the fetch rejects or the
response is non-2xx (its JSON parse failures are swallowed by
`.catch(() => ({}))`). -/
def downloadEndsInError : FetchResult → Bool
  | .failure _ => true
  | .success r => !r.ok

/-- The states reachable through the component lifecycle: the initial
state, and any state obtained from a reachable one by a complete run
of `handleUpload` (any file selection, any fetch outcome) or of
`handleDownload` on the currently remembered file. -/
inductive Reachable : ComponentState → Prop
  | init : Reachable initialState
  | upload (st : ComponentState) (files : List JSFile) (result : FetchResult) :
      Reachable st → Reachable (runEvents st (handleUpload files result))
  | download (st : ComponentState) (result : FetchResult) :
      Reachable st → Reachable (runEvents st (handleDownload st.originalFile result))

/-- Helper: a download run never touches `loading`, `text` or
`originalFile`, in the trace or in the resulting state. -/
theorem download_frame (fileOpt : Option JSFile) (result : FetchResult)
    (st : ComponentState) :
    ((handleDownload fileOpt result).all
      (fun e => !e.isSetLoading && !e.isSetText && !e.isSetOriginalFile)) = true
    ∧ (runEvents st (handleDownload fileOpt result)).text = st.text
    ∧ (runEvents st (handleDownload fileOpt result)).originalFile = st.originalFile
    ∧ (runEvents st (handleDownload fileOpt result)).loading = st.loading := by
  cases fileOpt with
  | none => simp [handleDownload, runEvents]
  | some f =>
    cases result with
    | failure msg =>
      simp [handleDownload, runEvents, applyEvent, Event.isSetLoading,
        Event.isSetText, Event.isSetOriginalFile, Event.isSetIsDownloading]
    | success r =>
      by_cases hok : r.ok
      all_goals
        simp [handleDownload, runEvents, applyEvent, hok, Event.isSetLoading,
          Event.isSetText, Event.isSetOriginalFile, Event.isSetIsDownloading]

/-- Helper: a character list is a prefix of itself followed by anything. -/
theorem jsStartsWithChars_append (p m : List Char) :
    jsStartsWithChars p (p ++ m) = true := by
  induction p with
  | nil => rfl
  | cons c cs ih => simp [jsStartsWithChars, ih]

/-- Helper: any status of the form `"Error: " ++ m` is classified as an
error by the `startsWith("Error:")` check. -/
theorem jsStartsWith_error (m : String) :
    jsStartsWith ("Error: " ++ m) "Error:" = true := by
  cases m with
  | mk l =>
    have h1 : ("Error: " ++ String.mk l).data = "Error:".data ++ (' ' :: l) := rfl
    rw [jsStartsWith, h1]
    exact jsStartsWithChars_append "Error:".data (' ' :: l)

/-- Helper: folding the generic server-error message into one literal. -/
theorem error_server_append (s : String) :
    "Error: " ++ ("Server error: " ++ s) = "Error: Server error: " ++ s := by
  cases s with
  | mk l => rfl

/-- C7: invoking the download handler with no remembered file is a
complete no-op — the effect trace is empty, so the state (status, text,
busy flags, remembered file) is unchanged and no network request is
made. -/
theorem C7_download_noop_without_file (result : FetchResult) (st : ComponentState) :
    handleDownload none result = []
    ∧ runEvents st (handleDownload none result) = st :=
  ⟨rfl, rfl⟩

/-- C2: a successful text-extraction response whose JSON body has
`text = S` leads to the component storing exactly `S`, displaying
exactly `S` (line breaks included, since the equality is on the whole
string), and setting the status to `"Success! Text extracted."`. -/
theorem C2_success_stores_and_displays (f : JSFile) (rest : List JSFile)
    (st : ComponentState) (code : Nat) (detail : JSVal) (S : String) :
    (runEvents st (handleUpload (f :: rest)
        (FetchResult.success ⟨true, code, Except.ok ⟨detail, JSVal.str S⟩⟩))).text
      = JSVal.str S
    ∧ displayedText (runEvents st (handleUpload (f :: rest)
        (FetchResult.success ⟨true, code, Except.ok ⟨detail, JSVal.str S⟩⟩))) = S
    ∧ (runEvents st (handleUpload (f :: rest)
        (FetchResult.success ⟨true, code, Except.ok ⟨detail, JSVal.str S⟩⟩))).status
      = "Success! Text extracted." := by
  refine ⟨?_, ?_, ?_⟩ <;>
    simp [handleUpload, runEvents, applyEvent, displayedText]

/-- C9: on a successful download the handler performs, in this order:
create the object URL, append the anchor, click it with download name
`extracted_text.docx`, remove the anchor, revoke the object URL, and
only then set the success status — so the URL is revoked synchronously
right after the save is triggered and never left unrevoked on the
success path. -/
theorem C9_download_success_order (f : JSFile) (code : Nat)
    (body : Except String JsonObj) :
    handleDownload (some f) (FetchResult.success ⟨true, code, body⟩)
      = [Event.setIsDownloading true,
         Event.setStatus "Preparing download...",
         Event.fetchRequest "http://localhost:8000/extract-docx",
         Event.createObjectURL,
         Event.appendChild,
         Event.clickAnchor "extracted_text.docx",
         Event.removeAnchor,
         Event.revokeObjectURL,
         Event.setStatus "Success! File downloaded.",
         Event.setIsDownloading false] := rfl

/-- C3: the download control is absent whenever the extracted text is
empty (falsy), present whenever the text is non-empty and neither
operation is in flight, and clickable only when text exists and both
busy flags are clear.  This holds for every state, reachable or not. -/
theorem C3_download_control (st : ComponentState) :
    (st.text.truthy = false → downloadButtonVisible st = false)
    ∧ (st.text.truthy = true → st.loading = false → st.isDownloading = false →
        downloadButtonVisible st = true)
    ∧ (downloadButtonEnabled st = true →
        st.text.truthy = true ∧ st.loading = false ∧ st.isDownloading = false) := by
  refine ⟨?_, ?_, ?_⟩
  · intro h
    simp [downloadButtonVisible, h]
  · intro h1 h2 h3
    simp [downloadButtonVisible, h1, h2]
  · intro h
    simp only [downloadButtonEnabled, downloadButtonVisible, Bool.and_eq_true,
      Bool.not_eq_true'] at h
    exact ⟨h.1.1, h.1.2, h.2⟩

/-- Witness for C3 at concrete states: an empty-text state hides the
button; a text-bearing idle state shows it; and from the button being
enabled there we recover text present and both flags clear. -/
theorem C3_download_control_witness :
    downloadButtonVisible
      { loading := false, isDownloading := false, status := "",
        text := JSVal.str "", originalFile := none } = false
    ∧ downloadButtonVisible
      { loading := false, isDownloading := false, status := "Success! Text extracted.",
        text := JSVal.str "Hello", originalFile := some ⟨"sample.pdf"⟩ } = true
    ∧ ((JSVal.str "Hello").truthy = true ∧ false = false ∧ false = false) :=
  ⟨(C3_download_control _).1 (by decide),
   (C3_download_control _).2.1 (by decide) rfl rfl,
   (C3_download_control
      { loading := false, isDownloading := false, status := "Success! Text extracted.",
        text := JSVal.str "Hello", originalFile := some ⟨"sample.pdf"⟩ }).2.2 (by decide)⟩

/-- C8: every download run, on any outcome, leaves `loading`, `text`
and `originalFile` untouched (no such setter even appears in its
trace), and when a file is remembered its trace starts by setting its
own busy flag and ends by clearing it. -/
theorem C8_download_frame_effects (fileOpt : Option JSFile) (result : FetchResult)
    (st : ComponentState) (f : JSFile) :
    ((handleDownload fileOpt result).all
        (fun e => !e.isSetLoading && !e.isSetText && !e.isSetOriginalFile)) = true
    ∧ (runEvents st (handleDownload fileOpt result)).text = st.text
    ∧ (runEvents st (handleDownload fileOpt result)).originalFile = st.originalFile
    ∧ (runEvents st (handleDownload fileOpt result)).loading = st.loading
    ∧ (handleDownload (some f) result).head? = some (Event.setIsDownloading true)
    ∧ (handleDownload (some f) result).getLast? = some (Event.setIsDownloading false) := by
  refine ⟨(download_frame fileOpt result st).1, (download_frame fileOpt result st).2.1,
    (download_frame fileOpt result st).2.2.1, (download_frame fileOpt result st).2.2.2,
    ?_, ?_⟩
  · cases result with
    | failure msg => rfl
    | success r =>
      by_cases hok : r.ok <;> simp [handleDownload, hok]
  · cases result with
    | failure msg => rfl
    | success r =>
      by_cases hok : r.ok <;>
        simp [handleDownload, hok, List.getLast?_concat]

/-- Counterexample to C1 as stated: a 500 response on the
text-extraction endpoint whose body is not parseable JSON produces the
JSON parse error message (because `handleUpload` calls `res.json()`
before checking `res.ok`), not the generic server-error fallback. -/
theorem C1_counterexample :
    (runEvents initialState (handleUpload [⟨"sample.pdf"⟩]
        (FetchResult.success ⟨false, 500, Except.error "Unexpected end of JSON input"⟩))).status
      = "Error: Unexpected end of JSON input"
    ∧ (runEvents initialState (handleUpload [⟨"sample.pdf"⟩]
        (FetchResult.success ⟨false, 500, Except.error "Unexpected end of JSON input"⟩))).status
      ≠ "Error: Server error: 500" := by
  refine ⟨rfl, ?_⟩
  decide

/-- C1 amended: only the document-extraction endpoint falls back to the
generic `"Error: Server error: <status code>"` message on a non-2xx
response with an unparseable body; the text-extraction endpoint parses
the body unconditionally, so the same situation there surfaces the
JSON parse rejection as `"Error: <parse error message>"`. -/
theorem C1_generic_fallback (f : JSFile) (rest : List JSFile)
    (st st' : ComponentState) (code : Nat) (parseMsg : String) :
    (runEvents st (handleDownload (some f)
        (FetchResult.success ⟨false, code, Except.error parseMsg⟩))).status
      = "Error: Server error: " ++ toString code
    ∧ (runEvents st' (handleUpload (f :: rest)
        (FetchResult.success ⟨false, code, Except.error parseMsg⟩))).status
      = "Error: " ++ parseMsg := by
  constructor
  · rw [← error_server_append]
    simp [handleDownload, runEvents, applyEvent, JSVal.orString]
  · simp [handleUpload, runEvents, applyEvent]

/-- C4: a non-2xx response from either endpoint whose JSON body carries
a non-empty `detail` string `X` yields the status `"Error: X"`. -/
theorem C4_detail_propagates (f : JSFile) (rest : List JSFile)
    (st st' : ComponentState) (code : Nat) (textField : JSVal)
    (X : String) (hX : X ≠ "") :
    (runEvents st (handleUpload (f :: rest)
        (FetchResult.success ⟨false, code, Except.ok ⟨JSVal.str X, textField⟩⟩))).status
      = "Error: " ++ X
    ∧ (runEvents st' (handleDownload (some f)
        (FetchResult.success ⟨false, code, Except.ok ⟨JSVal.str X, textField⟩⟩))).status
      = "Error: " ++ X := by
  have hbeq : (X == "") = false := by
    simpa using hX
  constructor <;>
    simp [handleUpload, handleDownload, runEvents, applyEvent, JSVal.orString, hbeq]

/-- Witness for C4: a 415 response with detail "Unsupported file type"
on both endpoints. -/
theorem C4_detail_propagates_witness :
    "Unsupported file type" ≠ ""
    ∧ ((runEvents initialState (handleUpload [⟨"sample.pdf"⟩]
        (FetchResult.success ⟨false, 415,
          Except.ok ⟨JSVal.str "Unsupported file type", JSVal.undef⟩⟩))).status
      = "Error: " ++ "Unsupported file type"
    ∧ (runEvents initialState (handleDownload (some ⟨"sample.pdf"⟩)
        (FetchResult.success ⟨false, 415,
          Except.ok ⟨JSVal.str "Unsupported file type", JSVal.undef⟩⟩))).status
      = "Error: " ++ "Unsupported file type") :=
  ⟨by decide,
   C4_detail_propagates ⟨"sample.pdf"⟩ [] initialState initialState 415 JSVal.undef
     "Unsupported file type" (by decide)⟩

/-- C5: whenever the upload handler runs with a selected file, its
first five effects are — in order — setting the busy flag, writing the
processing status, clearing the text, clearing the remembered file,
and only then issuing the network request; the very last effect clears
the busy flag again, and those are the only two touches of the
extraction busy flag, so it is set for the whole duration. -/
theorem C5_upload_clears_before_fetch (f : JSFile) (rest : List JSFile)
    (result : FetchResult) :
    (handleUpload (f :: rest) result).take 5
      = [Event.setLoading true,
         Event.setStatus ("Processing " ++ f.name ++ "..."),
         Event.setText (JSVal.str ""),
         Event.setOriginalFile none,
         Event.fetchRequest "http://localhost:8000/extract-text"]
    ∧ (handleUpload (f :: rest) result).getLast? = some (Event.setLoading false)
    ∧ (handleUpload (f :: rest) result).countP Event.isSetLoading = 2 := by
  rcases result with msg | ⟨ok, code, body⟩
  · refine ⟨rfl, rfl, ?_⟩
    simp [handleUpload, List.countP_cons, Event.isSetLoading]
  · rcases body with parseMsg | data
    · refine ⟨rfl, rfl, ?_⟩
      simp [handleUpload, List.countP_cons, Event.isSetLoading]
    · cases ok
      · refine ⟨rfl, rfl, ?_⟩
        simp [handleUpload, List.countP_cons, Event.isSetLoading]
      · refine ⟨rfl, rfl, ?_⟩
        simp [handleUpload, List.countP_cons, Event.isSetLoading]

/-- C6: any upload or download execution that ends in an error (for the
upload: rejected fetch, unparseable body, or non-2xx; for the
download: rejected fetch or non-2xx) leaves a status classified as an
error by the `startsWith("Error:")` check, clears the operation's own
busy flag, and issues exactly one network request — no retry. -/
theorem C6_error_terminal (f g : JSFile) (rest : List JSFile)
    (st st' : ComponentState) (resU resD : FetchResult)
    (hU : uploadEndsInError resU = true) (hD : downloadEndsInError resD = true) :
    statusIsError (runEvents st (handleUpload (f :: rest) resU)) = true
    ∧ (runEvents st (handleUpload (f :: rest) resU)).loading = false
    ∧ (handleUpload (f :: rest) resU).countP Event.isFetch = 1
    ∧ statusIsError (runEvents st' (handleDownload (some g) resD)) = true
    ∧ (runEvents st' (handleDownload (some g) resD)).isDownloading = false
    ∧ (handleDownload (some g) resD).countP Event.isFetch = 1 := by
  have hup : statusIsError (runEvents st (handleUpload (f :: rest) resU)) = true
      ∧ (runEvents st (handleUpload (f :: rest) resU)).loading = false
      ∧ (handleUpload (f :: rest) resU).countP Event.isFetch = 1 := by
    rcases resU with msg | ⟨ok, code, body⟩
    · refine ⟨?_, ?_, ?_⟩
      · simp only [statusIsError, handleUpload, runEvents, applyEvent]
        simp [runEvents, applyEvent, jsStartsWith_error]
      · simp [handleUpload, runEvents, applyEvent]
      · simp [handleUpload, List.countP_cons, Event.isFetch]
    · rcases body with parseMsg | data
      · refine ⟨?_, ?_, ?_⟩
        · simp [statusIsError, handleUpload, runEvents, applyEvent, jsStartsWith_error]
        · simp [handleUpload, runEvents, applyEvent]
        · simp [handleUpload, List.countP_cons, Event.isFetch]
      · have hok : ok = false := by
          simpa [uploadEndsInError] using hU
        subst hok
        refine ⟨?_, ?_, ?_⟩
        · simp [statusIsError, handleUpload, runEvents, applyEvent, jsStartsWith_error]
        · simp [handleUpload, runEvents, applyEvent]
        · simp [handleUpload, List.countP_cons, Event.isFetch]
  have hdn : statusIsError (runEvents st' (handleDownload (some g) resD)) = true
      ∧ (runEvents st' (handleDownload (some g) resD)).isDownloading = false
      ∧ (handleDownload (some g) resD).countP Event.isFetch = 1 := by
    rcases resD with msg | ⟨ok, code, body⟩
    · refine ⟨?_, ?_, ?_⟩
      · simp [statusIsError, handleDownload, runEvents, applyEvent, jsStartsWith_error]
      · simp [handleDownload, runEvents, applyEvent]
      · simp [handleDownload, List.countP_cons, Event.isFetch]
    · have hok : ok = false := by
        simpa [downloadEndsInError] using hD
      subst hok
      refine ⟨?_, ?_, ?_⟩
      · simp [statusIsError, handleDownload, runEvents, applyEvent, jsStartsWith_error]
      · simp [handleDownload, runEvents, applyEvent]
      · simp [handleDownload, List.countP_cons, Event.isFetch]
  exact ⟨hup.1, hup.2.1, hup.2.2, hdn.1, hdn.2.1, hdn.2.2⟩

/-- Witness for C6: a rejected upload fetch and a 500 download response
with an unparseable body. -/
theorem C6_error_terminal_witness :
    uploadEndsInError (FetchResult.failure "Failed to fetch") = true
    ∧ downloadEndsInError
        (FetchResult.success ⟨false, 500, Except.error "bad json"⟩) = true
    ∧ (statusIsError (runEvents initialState (handleUpload [⟨"sample.pdf"⟩]
          (FetchResult.failure "Failed to fetch"))) = true
      ∧ (runEvents initialState (handleUpload [⟨"sample.pdf"⟩]
          (FetchResult.failure "Failed to fetch"))).loading = false
      ∧ (handleUpload [⟨"sample.pdf"⟩]
          (FetchResult.failure "Failed to fetch")).countP Event.isFetch = 1
      ∧ statusIsError (runEvents initialState (handleDownload (some ⟨"sample.pdf"⟩)
          (FetchResult.success ⟨false, 500, Except.error "bad json"⟩))) = true
      ∧ (runEvents initialState (handleDownload (some ⟨"sample.pdf"⟩)
          (FetchResult.success ⟨false, 500, Except.error "bad json"⟩))).isDownloading
          = false
      ∧ (handleDownload (some ⟨"sample.pdf"⟩)
          (FetchResult.success ⟨false, 500, Except.error "bad json"⟩)).countP
          Event.isFetch = 1) :=
  ⟨rfl, rfl,
   C6_error_terminal ⟨"sample.pdf"⟩ ⟨"sample.pdf"⟩ [] initialState initialState
     (FetchResult.failure "Failed to fetch")
     (FetchResult.success ⟨false, 500, Except.error "bad json"⟩) rfl rfl⟩

/-- C10: in every reachable state, non-empty extracted text implies a
remembered file, and that file is the one whose upload produced the
text: a successful upload of `f` sets `originalFile = some f` and
`text = data.text` together from the same invocation; the pair is
cleared together before the fetch of every upload; every upload that
ends in an error leaves the pair cleared; and downloads never touch
the pair.  Hence whenever the download button is visible the download
handler's null-file guard cannot fire: its run is never the empty
no-op trace. -/
theorem C10_text_implies_file (st : ComponentState) (h : Reachable st) :
    (st.text.truthy = true → st.originalFile ≠ none)
    ∧ (∀ (st' : ComponentState) (f : JSFile) (rest : List JSFile) (code : Nat)
         (data : JsonObj),
        (runEvents st' (handleUpload (f :: rest)
            (FetchResult.success ⟨true, code, Except.ok data⟩))).originalFile = some f
        ∧ (runEvents st' (handleUpload (f :: rest)
            (FetchResult.success ⟨true, code, Except.ok data⟩))).text = data.text)
    ∧ (∀ (st' : ComponentState) (f : JSFile) (rest : List JSFile)
         (result : FetchResult),
        (runEvents st' ((handleUpload (f :: rest) result).take 5)).text = JSVal.str ""
        ∧ (runEvents st' ((handleUpload (f :: rest) result).take 5)).originalFile
            = none)
    ∧ (∀ (st' : ComponentState) (f : JSFile) (rest : List JSFile)
         (resU : FetchResult), uploadEndsInError resU = true →
        (runEvents st' (handleUpload (f :: rest) resU)).text = JSVal.str ""
        ∧ (runEvents st' (handleUpload (f :: rest) resU)).originalFile = none)
    ∧ (∀ (st' : ComponentState) (fileOpt : Option JSFile) (result : FetchResult),
        (runEvents st' (handleDownload fileOpt result)).text = st'.text
        ∧ (runEvents st' (handleDownload fileOpt result)).originalFile
            = st'.originalFile)
    ∧ (∀ result : FetchResult, downloadButtonVisible st = true →
        handleDownload st.originalFile result ≠ []) := by
  have key : st.text.truthy = true → st.originalFile ≠ none := by
    induction h with
    | init =>
      intro hx
      simp [initialState, JSVal.truthy] at hx
    | upload st' files result hst ih =>
      rcases files with _ | ⟨f, rest⟩
      · simpa [handleUpload, runEvents] using ih
      · rcases result with msg | ⟨ok, code, body⟩
        · intro hx
          simp [handleUpload, runEvents, applyEvent, JSVal.truthy] at hx
        · rcases body with parseMsg | data
          · intro hx
            simp [handleUpload, runEvents, applyEvent, JSVal.truthy] at hx
          · cases ok
            · intro hx
              simp [handleUpload, runEvents, applyEvent, JSVal.truthy] at hx
            · intro hx
              simp [handleUpload, runEvents, applyEvent]
    | download st' result hst ih =>
      have hfr := download_frame st'.originalFile result st'
      intro hx
      rw [hfr.2.1] at hx
      rw [hfr.2.2.1]
      exact ih hx
  refine ⟨key, ?_, ?_, ?_, ?_, ?_⟩
  · intro st' f rest code data
    constructor <;> simp [handleUpload, runEvents, applyEvent]
  · intro st' f rest result
    have htake : (handleUpload (f :: rest) result).take 5
        = [Event.setLoading true,
           Event.setStatus ("Processing " ++ f.name ++ "..."),
           Event.setText (JSVal.str ""),
           Event.setOriginalFile none,
           Event.fetchRequest "http://localhost:8000/extract-text"] := by
      rcases result with msg | ⟨ok, code, body⟩
      · rfl
      · rcases body with parseMsg | data
        · rfl
        · cases ok <;> rfl
    rw [htake]
    constructor <;> simp [runEvents, applyEvent]
  · intro st' f rest resU hU
    rcases resU with msg | ⟨ok, code, body⟩
    · constructor <;> simp [handleUpload, runEvents, applyEvent]
    · rcases body with parseMsg | data
      · constructor <;> simp [handleUpload, runEvents, applyEvent]
      · have hok : ok = false := by
          simpa [uploadEndsInError] using hU
        subst hok
        constructor <;> simp [handleUpload, runEvents, applyEvent]
  · intro st' fileOpt result
    exact ⟨(download_frame fileOpt result st').2.1,
      (download_frame fileOpt result st').2.2.1⟩
  · intro result hvis
    have ht : st.text.truthy = true := by
      simp only [downloadButtonVisible, Bool.and_eq_true] at hvis
      exact hvis.1
    have hf := key ht
    rcases hfile : st.originalFile with _ | g
    · exact absurd hfile hf
    · rcases result with msg | ⟨ok, code, body⟩
      · simp [handleDownload]
      · cases ok <;> simp [handleDownload]

/-- Witness for C10 at the state reached by one successful upload of
"sample.pdf" returning text "Hello": the remembered file is non-null
there, and it is exactly the uploaded file, remembered together with
that very response text. -/
theorem C10_text_implies_file_witness :
    (runEvents initialState (handleUpload [⟨"sample.pdf"⟩]
        (FetchResult.success ⟨true, 200,
          Except.ok ⟨JSVal.undef, JSVal.str "Hello"⟩⟩))).originalFile ≠ none
    ∧ ((runEvents initialState (handleUpload [⟨"sample.pdf"⟩]
        (FetchResult.success ⟨true, 200,
          Except.ok ⟨JSVal.undef, JSVal.str "Hello"⟩⟩))).originalFile
        = some ⟨"sample.pdf"⟩
      ∧ (runEvents initialState (handleUpload [⟨"sample.pdf"⟩]
        (FetchResult.success ⟨true, 200,
          Except.ok ⟨JSVal.undef, JSVal.str "Hello"⟩⟩))).text
        = JSVal.str "Hello") :=
  ⟨(C10_text_implies_file _
      (Reachable.upload initialState [⟨"sample.pdf"⟩]
        (FetchResult.success ⟨true, 200,
          Except.ok ⟨JSVal.undef, JSVal.str "Hello"⟩⟩) Reachable.init)).1
    (by decide),
   (C10_text_implies_file initialState Reachable.init).2.1
     initialState ⟨"sample.pdf"⟩ [] 200 ⟨JSVal.undef, JSVal.str "Hello"⟩⟩
